import Mathlib

/-!
Verification of the `dbtypes` Go package (calendar-date value type `Date`
wrapping `time.Time`, plus a thin `JSON` map type).

Shallow embedding conventions:

* A Go `time.Time` value is modeled by `Date` below: `abs` is the instant as
  whole seconds since the zero time (January 1, year 1, 00:00:00 UTC; Go's
  internal `ext` field counts exactly these seconds, there are no leap
  seconds in Go's timeline), and `off` is the fixed zone offset in seconds
  east of UTC of the value's location (`time.Time.Location()`).  Every value
  produced by this package has zero nanoseconds, so nanoseconds are not
  modeled.  The wall-clock reading of an instant in its location is
  `abs + off`.
* `time.Local` is an environment-dependent fixed offset; functions of the
  source that use it (`NewDate`) take the offset `off` as an explicit
  parameter.
* Go's `time.Date`/`Time.Date` civil-calendar conversions are modeled by the
  standard proleptic-Gregorian day-numbering (`daysFromCivil` /
  `civilFromDays`, Howard Hinnant's algorithms, shifted so that day 0 is
  0001-01-01); Go's `daysSinceEpoch`/`absDate` cascade computes exactly this
  day numbering.
* Errors are an inductive `GoError`; fallible functions return `Except`.
-/

-- Equality of `Except` results is decidable (used to evaluate the
-- theorems below on concrete inputs).
deriving instance DecidableEq for Except

/-- One calendar day in seconds (Go `24 * time.Hour` in seconds). -/
def secondsPerDay : Int := 86400

/-- Model of a Go `time.Time` restricted to whole seconds, and of the
`Date` newtype of the source (`type Date time.Time`): `abs` = seconds since
0001-01-01 00:00:00 UTC, `off` = zone offset seconds east of UTC. -/
structure Date where
  abs : Int
  off : Int
deriving DecidableEq, Repr

/-- The zero `time.Time` / zero `Date`: 0001-01-01 00:00:00 UTC. -/
def zeroDate : Date := ⟨0, 0⟩

/-- Days since 0001-01-01 of the civil date (y, m, d), for m already
normalized to 1..12 (d may be out of range: day overflow is a plain day
offset, as in Go's `time.Date`).  Hinnant's days_from_civil shifted to the
year-1 epoch. -/
def daysFromCivil (y m d : Int) : Int :=
  let y1 := if m ≤ 2 then y - 1 else y
  let era := y1 / 400
  let yoe := y1 - era * 400
  let mp := if 2 < m then m - 3 else m + 9
  let doy := (153 * mp + 2) / 5 + d - 1
  let doe := yoe * 365 + yoe / 4 - yoe / 100 + doy
  era * 146097 + doe - 306

/-- Last step of Hinnant's civil_from_days: day-of-era `doy` of the
March-based year-of-era `yoe` of era `era` to the civil date. -/
def civilOfYoe (era yoe doy : Int) : Int × Int × Int :=
  let mp := (5 * doy + 2) / 153
  let d := doy - (153 * mp + 2) / 5 + 1
  let m := if mp < 10 then mp + 3 else mp - 9
  (era * 400 + yoe + (if m ≤ 2 then 1 else 0), m, d)

/-- Middle step of Hinnant's civil_from_days: extract the year-of-era and
day-of-year from the day-of-era `doe`. -/
def civilOfEra (era doe : Int) : Int × Int × Int :=
  let yoe := (doe - doe / 1460 + doe / 36524 - doe / 146096) / 365
  let doy := doe - (365 * yoe + yoe / 4 - yoe / 100)
  civilOfYoe era yoe doy

/-- Civil date (y, m, d) of the day number z (days since 0001-01-01).
Hinnant's civil_from_days shifted to the year-1 epoch; models the
year/month/day extraction of Go's `Time.Date` (`absDate`). -/
def civilFromDays (z : Int) : Int × Int × Int :=
  let z1 := z + 306
  let era := z1 / 146097
  let doe := z1 - era * 146097
  civilOfEra era doe

/-- Day number (days since 0001-01-01) of day 1 of the month `m` of year
`y`, after Go's `norm(year, m-1, 12)` month normalization (floor
division). -/
def goDateDays (y m : Int) : Int :=
  let m0 := m - 1
  daysFromCivil (y + m0 / 12) (m0 % 12 + 1) 1

/-- Go `time.Date(y, m, d, 0, 0, 0, 0, loc)` with `clock` seconds of
time-of-day (hour*3600+min*60+sec after Go's normalization, always in
[0, 86400) at our call sites) in a fixed-offset location `off`. -/
def goDateFull (y m d clock off : Int) : Date :=
  ⟨(goDateDays y m + (d - 1)) * secondsPerDay + clock - off, off⟩

/-- Go `time.Date(y, m, d, 0, 0, 0, 0, loc)` at midnight. -/
def goDate (y m d off : Int) : Date :=
  goDateFull y m d 0 off

/-- Source `NewDate(year, month, day)`: `time.Date(year, month, day,
0,0,0,0, time.Local)`.  The local zone's offset is the parameter `off`. -/
def NewDate (off y m d : Int) : Date :=
  goDate y m d off

/-- Wall-clock seconds reading of the instant in its own location. -/
def wallSecs (t : Date) : Int := t.abs + t.off

/-- Wall-clock day number (days since 0001-01-01) of the value. -/
def wallDays (t : Date) : Int := wallSecs t / secondsPerDay

/-- Wall-clock seconds within the day. -/
def wallClock (t : Date) : Int := wallSecs t % secondsPerDay

/-- Source `Date.Year()`: `time.Time(date).Year()`. -/
def Date.Year (t : Date) : Int := (civilFromDays (wallDays t)).1

/-- Source `Date.Month()`: `int(time.Time(date).Month())`. -/
def Date.Month (t : Date) : Int := (civilFromDays (wallDays t)).2.1

/-- Source `Date.Day()`: `time.Time(date).Day()`. -/
def Date.Day (t : Date) : Int := (civilFromDays (wallDays t)).2.2

/-- Go `Time.Truncate(24 * time.Hour)`: rounds the instant down to a
multiple of 24h since the zero time (an absolute-time operation, performed
on the instant, not on the wall clock; the location is kept). -/
def truncate24 (t : Date) : Date := ⟨secondsPerDay * (t.abs / secondsPerDay), t.off⟩

/-- Go `Time.UTC()`: same instant, location set to UTC. -/
def toUTC (t : Date) : Date := ⟨t.abs, 0⟩

/-- Source `Date.IsZero()`: the underlying instant is the zero time. -/
def Date.IsZero (t : Date) : Bool := t.abs = 0

/-- Source `Date.Equal`: both operands are truncated to a 24h multiple and
moved to UTC (`UTC()` does not change the instant), then the instants are
compared with `time.Time.Equal`. -/
def Date.Equal (a b : Date) : Bool :=
  (toUTC (truncate24 a)).abs = (toUTC (truncate24 b)).abs

/-- Source `Date.Before`: as `Equal`, with `time.Time.Before`. -/
def Date.Before (a b : Date) : Bool :=
  (toUTC (truncate24 a)).abs < (toUTC (truncate24 b)).abs

/-- Source `Date.After`: as `Equal`, with `time.Time.After`. -/
def Date.After (a b : Date) : Bool :=
  (toUTC (truncate24 b)).abs < (toUTC (truncate24 a)).abs

/-- Source `Date.AddDate(years, months, days)`: Go rebuilds the value with
`time.Date(year+years, month+months, day+days, hour, min, sec, nsec, loc)`
from the wall-clock fields of the receiver. -/
def Date.AddDate (t : Date) (years months days : Int) : Date :=
  goDateFull (Date.Year t + years) (Date.Month t + months) (Date.Day t + days)
    (wallClock t) t.off

/-- Source `Date.AddDays`. -/
def Date.AddDays (t : Date) (days : Int) : Date := Date.AddDate t 0 0 days

/-- Source `Date.AddMonths`. -/
def Date.AddMonths (t : Date) (months : Int) : Date := Date.AddDate t 0 months 0

/-- Source `Date.AddYears`. -/
def Date.AddYears (t : Date) (years : Int) : Date := Date.AddDate t years 0 0

/-- Source `Date.DaysInMonth()`: `nextMonth := t.AddDate(0, 1, 0)`, then
`time.Date(nextMonth.Year(), nextMonth.Month(), 0, 0,0,0,0, loc).Day()`
(day 0 of a month is the last day of the month before it). -/
def Date.DaysInMonth (t : Date) : Int :=
  let nextMonth := Date.AddDate t 0 1 0
  Date.Day (goDate (Date.Year nextMonth) (Date.Month nextMonth) 0 t.off)

/-- Source `Date.DaysInYear()`: Gregorian leap-year test on the wall year
(Go's `%` is truncated division, but divisibility by a positive constant
agrees between truncated and Euclidean remainder, so `% = 0` tests here are
faithful for negative years too). -/
def Date.DaysInYear (t : Date) : Int :=
  let year := Date.Year t
  if (year % 4 = 0 ∧ year % 100 ≠ 0) ∨ year % 400 = 0 then 366 else 365

/-- Go `maxDuration` in nanoseconds (`1<<63 - 1`). -/
def maxDur : Int := 9223372036854775807

/-- Go `Time.Sub` saturation: a difference exceeding the `Duration` range is
clamped to the maximum (minimum) duration. -/
def clampDur (n : Int) : Int :=
  if maxDur < n then maxDur else if n < -maxDur - 1 then -maxDur - 1 else n

/-- Source `Date.DaysBetween(other)`: both operands are truncated to 24h
multiples; `other.Sub(start)` produces a (saturating) duration in
nanoseconds; then `int(math.Abs(dur.Hours() / 24))`.  For every reachable
duration the float computation is exact: an unsaturated difference of two
24h-truncated instants is `k * 86400e9` ns with `k ≤ 106751`, which is
exactly representable in float64 (it is an integer below 2^48 times 2^16)
and divides exactly, and at the two saturated endpoints the float pipeline
yields 106751 = ⌊(2^63-1) / 86400e9⌋.  So the computation equals
⌊|dur| / 86400e9⌋, which is what is written here. -/
def Date.DaysBetween (t other : Date) : Int :=
  let start := truncate24 t
  let e := truncate24 other
  let durNs := clampDur ((e.abs - start.abs) * 1000000000)
  (durNs.natAbs : Int) / 86400000000000

/-- Go `isLeap` (used by `time.Parse` day-range validation) and the
Gregorian rule of the spec. -/
def isLeap (y : Int) : Bool :=
  (y % 4 = 0 ∧ y % 100 ≠ 0) ∨ y % 400 = 0

/-- Go `daysIn(m, year)`: length of month m of the year (m in 1..12 at all
use sites). -/
def goDaysIn (m y : Int) : Int :=
  if m = 2 then (if isLeap y then 29 else 28)
  else if m = 4 ∨ m = 6 ∨ m = 9 ∨ m = 11 then 30 else 31

/-- ASCII digit character of k (used for k in 0..9). -/
def digitChar (k : Nat) : Char := Char.ofNat (48 + k)

/-- Numeric value of an ASCII digit character. -/
def charVal (c : Char) : Nat := c.toNat - 48

/-- Big-endian decimal digit characters of n, with explicit fuel (fuel ≥ n
suffices); mirrors the decimal rendering of Go's `fmt` verb `%d`. -/
def natCharsAux : Nat → Nat → List Char
  | 0, _ => []
  | fuel + 1, n => if n = 0 then [] else natCharsAux fuel (n / 10) ++ [digitChar (n % 10)]

/-- Decimal rendering of a natural number (Go `%d` on a non-negative value). -/
def natChars (n : Nat) : List Char :=
  if n = 0 then ['0'] else natCharsAux n n

/-- Decimal rendering of an integer (Go `%d`). -/
def intChars (n : Int) : List Char :=
  if n < 0 then '-' :: natChars n.natAbs else natChars n.toNat

/-- Go `%02d`: zero-pad the decimal rendering to width 2 (for a negative
value the minus sign counts toward the width, so two characters are already
reached and nothing is padded, as in Go). -/
def pad2 (n : Int) : List Char :=
  let s := intChars n
  if s.length < 2 then '0' :: s else s

/-- The 4-digit zero-padded year field of Go's RFC 3339 serialization
(`Time.MarshalJSON` output); only evaluated for years in [0, 9999]. -/
def pad4 (n : Int) : List Char :=
  List.replicate (4 - (natChars n.toNat).length) '0' ++ natChars n.toNat

/-- Go `unicode.IsSpace` (the characters of Unicode's White_Space property,
as tested by `strings.TrimSpace`). -/
def goIsSpace (c : Char) : Bool :=
  c ∈ [' ', '\t', '\n', '\x0b', '\x0c', '\r', '\u0085', ' ',
       ' ', ' ', ' ', ' ', ' ', ' ', ' ',
       ' ', ' ', ' ', ' ', ' ', ' ', ' ',
       ' ', ' ', '　']

/-- Go `strings.TrimSpace`: drop leading and trailing white space. -/
def goTrimSpace (s : String) : String :=
  String.mk (((s.data.dropWhile goIsSpace).reverse.dropWhile goIsSpace).reverse)

/-- Go `time.Parse("2006-01-02", s)`, reduced to the parsed (y, m, d) on
success: the layout demands exactly 4 digits of year, a literal dash, 2
digits of month, a literal dash, 2 digits of day, and end of input
(`extra text` otherwise); after parsing, `Parse` rejects month outside
1..12 (`month out of range`) and day outside 1..daysIn(month, year)
(`day out of range`). -/
def parseLayoutDate (s : List Char) : Option (Int × Int × Int) :=
  match s with
  | [y3, y2, y1, y0, dash1, m1, m0, dash2, d1, d0] =>
    if y3.isDigit ∧ y2.isDigit ∧ y1.isDigit ∧ y0.isDigit ∧ dash1 = '-' ∧
       m1.isDigit ∧ m0.isDigit ∧ dash2 = '-' ∧ d1.isDigit ∧ d0.isDigit then
      let y : Int :=
        (charVal y3 * 1000 + charVal y2 * 100 + charVal y1 * 10 + charVal y0 : Nat)
      let m : Int := (charVal m1 * 10 + charVal m0 : Nat)
      let d : Int := (charVal d1 * 10 + charVal d0 : Nat)
      if 1 ≤ m ∧ m ≤ 12 then
        if 1 ≤ d ∧ d ≤ goDaysIn m y then some (y, m, d) else none
      else none
    else none
  | _ => none

/-- Error values returned by the source's fallible functions. -/
inductive GoError
  /-- `date string is empty` (from `ParseDate`). -/
  | emptyInput
  /-- `date should be of the format: yyyy-mm-dd` (from `UnmarshalJSON`). -/
  | formatError
  /-- `date should be a string, got %v` (from `UnmarshalJSON`); carries the
  raw input bytes that are printed. -/
  | typeError (raw : String)
  /-- `Time.MarshalJSON: year outside of range [0,9999]`. -/
  | serialization
  /-- `convertAssign` failure inside `sql.NullTime.Scan` (`unsupported
  Scan ...`). -/
  | conversionError
deriving DecidableEq, Repr

/-- Classification of the raw bytes handed to `Date.UnmarshalJSON`, by how
`json.Unmarshal(data, &s)` with a `string` target treats them. -/
inductive JsonData
  /-- A valid JSON `null` literal.  `padded` is true when the literal is
  surrounded by JSON whitespace, so that the raw bytes are not exactly
  `null` (unmarshaling `null` into a string is a documented no-op that
  returns no error either way). -/
  | jnull (padded : Bool)
  /-- A valid JSON string literal, decoding to `s`.  Its raw bytes begin
  with a quote (possibly after whitespace), so they never equal `null`. -/
  | jstr (s : String)
  /-- Anything `json.Unmarshal(·, &s)` rejects: numbers, objects, arrays,
  booleans, malformed input.  `raw` is the input text (printed in the
  error). -/
  | jother (raw : String)
deriving DecidableEq

/-- The tail of `Date.UnmarshalJSON` once the decoded string `s` is in hand
and the raw bytes are known not to be `null`: blank strings become the
zero-date literal, the result must parse against `2006-01-02`, and on
success the receiver is set by parsing `"<s>T00:00:00Z"` as RFC 3339, i.e.
to midnight UTC of the parsed day. -/
def unmarshalStringPath (s : String) : Except GoError Date :=
  let s1 := if goTrimSpace s = "" then "0001-01-01" else s
  match parseLayoutDate s1.data with
  | none => .error .formatError
  | some (y, m, d) => .ok (goDate y m d 0)

/-- Source `Date.UnmarshalJSON(data)`, state-passing: returns the new value
of the receiver, or an error (receiver unchanged).  The code first runs
`json.Unmarshal(data, &s)` (fails ⇒ type error; a JSON `null` is a no-op
success leaving `s` empty), then returns early if the raw bytes equal
`null`, then follows `unmarshalStringPath`. -/
def Date.UnmarshalJSON (data : JsonData) (date : Date) : Except GoError Date :=
  match data with
  | .jother raw => .error (.typeError raw)
  | .jnull padded => if padded then unmarshalStringPath "" else .ok date
  | .jstr s => unmarshalStringPath s

/-- Source `ParseDate(dateStr)`: empty input is rejected first; otherwise
the string is JSON-quoted (`json.Marshal` of a string) and handed to
`UnmarshalJSON` on a zero receiver.  The quoted bytes decode back to
`dateStr` and never equal `null`. -/
def ParseDate (dateStr : String) : Except GoError Date :=
  if dateStr = "" then .error .emptyInput
  else Date.UnmarshalJSON (.jstr dateStr) zeroDate

/-- Source `Date.MarshalJSON()`: the zero value marshals to the literal
`null`; otherwise `time.Time.MarshalJSON` runs first (its strict RFC 3339
serializer fails for a wall year outside [0, 9999] and for a zone offset
that is not a whole number of minutes), and its RFC 3339 output is sliced
at byte positions 1:5, 6:8 and 9:11 — the zero-padded wall year, month and
day — and reassembled as `"YYYY-MM-DD"` (`%02s` pads to width 2, which the
month and day fields already have). -/
def Date.MarshalJSON (t : Date) : Except GoError String :=
  if Date.IsZero t then .ok "null"
  else if Date.Year t < 0 ∨ 10000 ≤ Date.Year t ∨ t.off % 60 ≠ 0 then .error .serialization
  else .ok (String.mk ('"' :: (pad4 (Date.Year t) ++ '-' :: (pad2 (Date.Month t) ++ '-' :: (pad2 (Date.Day t) ++ ['"'])))))

/-- Source `Date.String()`: `fmt.Sprintf("%d-%02d-%02d", Year, Month, Day)`
(note: `%d`, so the year is not zero-padded). -/
def Date.String (t : Date) : String :=
  String.mk (intChars (Date.Year t) ++ '-' :: (pad2 (Date.Month t) ++ '-' :: pad2 (Date.Day t)))

/-- A value coming from a database driver, as handed to `Scan`
(`driver.Value` is nil, int64, float64, bool, []byte, string, or
time.Time). -/
inductive DriverValue
  | null
  | timeVal (t : Date)
  | stringVal (s : String)
  | bytesVal (b : List Nat)
  | intVal (n : Int)
  | floatVal
  | boolVal (b : Bool)
deriving DecidableEq

/-- Go `sql.NullTime.Scan` on a fresh `NullTime`: nil sets the zero time
and Valid=false; a `time.Time` is assigned; any other driver value sets
Valid=true but `convertAssign` fails, leaving the fresh `Time` field at its
zero value and returning an error. -/
def nullTimeScan : DriverValue → (Date × Bool) × Option GoError
  | .null => ((zeroDate, false), none)
  | .timeVal t => ((t, true), none)
  | _ => ((zeroDate, true), some .conversionError)

/-- Source `Date.Scan(value)`: scans into a fresh `sql.NullTime` and then
unconditionally overwrites the receiver with `nullTime.Time`, returning
whatever error the inner scan produced. -/
def Date.Scan (_date : Date) (value : DriverValue) : Date × Option GoError :=
  let r := nullTimeScan value
  (r.1.1, r.2)

/-- Outcome of `JSON.Scan`: the unchecked type assertion `value.([]byte)`
either succeeds (a byte slice, after which the bytes are handed to the
generic `encoding/json` unmarshaler — an external collaborator whose
behavior the claims do not touch) or panics at runtime. -/
inductive JSONScanOutcome
  | viaUnmarshal (b : List Nat)
  | panicked
deriving DecidableEq

/-- Source `JSON.Scan(value)`: `json.Unmarshal(value.([]byte), &j)` — the
type assertion is unchecked, so any driver value that is not a byte slice
(including nil and string) panics instead of returning an error. -/
def JSON.Scan : DriverValue → JSONScanOutcome
  | .bytesVal b => .viaUnmarshal b
  | _ => .panicked

/-! ### Verification infrastructure

Bounded checking and the natural-number mirror of the year-of-era
extraction, used to prove the calendar round-trip below.  These are proof
devices, not models of source code. -/

/-- Check `P` on every index of the interval [a, a+len), by balanced
splitting with structural fuel `d` (so that evaluation recurses only to
logarithmic depth). -/
def chkD (P : Nat → Bool) : Nat → Nat → Nat → Bool
  | 0, a, len => decide (len = 0) || (decide (len = 1) && P a)
  | d + 1, a, len =>
    if len ≤ 1 then decide (len = 0) || (decide (len = 1) && P a)
    else chkD P d a (len / 2) && chkD P d (a + len / 2) (len - len / 2)

/-- Nat mirror of the year-of-era extraction numerator of `civilOfEra`
(all intermediate values stay non-negative, so Nat subtraction agrees with
the Int computation). -/
def gN (n : Nat) : Nat := n - n / 1460 + n / 36524 - n / 146096

/-- Nat mirror of the extracted year-of-era. -/
def yoeFN (doe : Nat) : Nat := gN doe / 365

/-- Day-of-era of March 1 of the March-based year-of-era y (0 ≤ y ≤ 400):
365 y plus the leap days strictly before it. -/
def dssN (y : Nat) : Nat := 365 * y + y / 4 - y / 100

/-- Length in days of the March-based year-of-era y: its terminal Feb 29
exists iff the civil year y+1 of the era is a leap year. -/
def lenN (y : Nat) : Nat :=
  if ((y + 1) % 4 = 0 ∧ (y + 1) % 100 ≠ 0) ∨ y = 399 then 366 else 365

/-- Endpoint check for one year-of-era: the extraction numerator `gN` lies
in the band [365 y, 365 y + 365) at both the first and the last day of the
year. -/
def endCase (y : Nat) : Bool :=
  decide (365 * y ≤ gN (dssN y)) && decide (gN (dssN y + lenN y - 1) < 365 * y + 365)

/-- Length in days of the March-based month mp (0 = March, ..., 11 =
February, counted with its leap day). -/
def mlenM (mp : Nat) : Nat :=
  if mp = 1 ∨ mp = 3 ∨ mp = 6 ∨ mp = 8 then 30 else if mp = 11 then 29 else 31

/-- One (month, day) case of the month/day-of-year round-trip check; the
index k encodes mp = k / 31 and dm = k % 31 (day-of-month minus 1). -/
def monthCase (k : Nat) : Bool :=
  let mp := k / 31
  let dm := k % 31
  decide (mlenM mp ≤ dm) ||
    (let doy := (153 * mp + 2) / 5 + dm
     decide ((5 * doy + 2) / 153 = mp) && decide (doy ≤ 365) &&
       (decide (doy ≠ 365) || (decide (mp = 11) && decide (dm = 28))))

/-! ### Infrastructure lemmas -/

/-- Soundness of the bounded checker. -/
theorem chkD_sound (P : Nat → Bool) :
    ∀ (d a len : Nat), chkD P d a len = true → ∀ i, a ≤ i → i < a + len → P i = true := by
  intro d
  induction d with
  | zero =>
    intro a len h i hi1 hi2
    simp only [chkD, Bool.or_eq_true, Bool.and_eq_true, decide_eq_true_eq] at h
    rcases h with h | ⟨h1, h2⟩
    · omega
    · have hia : i = a := by omega
      rw [hia]; exact h2
  | succ d ih =>
    intro a len h i hi1 hi2
    rw [chkD] at h
    split at h
    · simp only [Bool.or_eq_true, Bool.and_eq_true, decide_eq_true_eq] at h
      rcases h with h | ⟨h1, h2⟩
      · omega
      · have hia : i = a := by omega
        rw [hia]; exact h2
    · rw [Bool.and_eq_true] at h
      by_cases hc : i < a + len / 2
      · exact ih a (len / 2) h.1 i hi1 hc
      · exact ih (a + len / 2) (len - len / 2) h.2 i (by omega) (by omega)

/-- One step of monotonicity of the extraction numerator. -/
theorem gN_le_succ (n : Nat) : gN n ≤ gN (n + 1) := by
  unfold gN; omega

/-- The extraction numerator is monotone. -/
theorem gN_mono : Monotone gN :=
  monotone_nat_of_le_succ gN_le_succ

set_option maxHeartbeats 4000000 in
/-- The year-of-era extraction band holds at the endpoints of each of the
400 years of an era. -/
theorem yoe_endpoints : chkD endCase 10 0 400 = true := by decide

/-- The year-of-era extraction formula recovers the year from any day of
the year. -/
theorem yoeF_eq (yoe doy : Nat) (h4 : yoe < 400) (hd : doy + 1 ≤ lenN yoe) :
    yoeFN (dssN yoe + doy) = yoe := by
  have hs := chkD_sound endCase 10 0 400 yoe_endpoints yoe (by omega) (by omega)
  simp only [endCase, Bool.and_eq_true, decide_eq_true_eq] at hs
  obtain ⟨h1, h2⟩ := hs
  have m1 : gN (dssN yoe) ≤ gN (dssN yoe + doy) := gN_mono (by omega)
  have m2 : gN (dssN yoe + doy) ≤ gN (dssN yoe + lenN yoe - 1) := gN_mono (by omega)
  unfold yoeFN
  omega

set_option maxHeartbeats 1000000 in
/-- The month/day-of-year round-trip table. -/
theorem month_table : chkD monthCase 10 0 372 = true := by decide

/-- Facts about the day-of-year of day dm+1 of the March-based month mp:
the month extraction recovers mp, the day-of-year is at most 365, and 365
is reached only on Feb 29. -/
theorem month_facts (mp dm : Nat) (hmp : mp < 12) (hdm : dm + 1 ≤ mlenM mp) :
    (5 * ((153 * mp + 2) / 5 + dm) + 2) / 153 = mp ∧
    (153 * mp + 2) / 5 + dm ≤ 365 ∧
    ((153 * mp + 2) / 5 + dm = 365 → mp = 11 ∧ dm = 28) := by
  have hdm31 : dm < 31 := by
    have h31 : mlenM mp ≤ 31 := by unfold mlenM; split_ifs <;> omega
    omega
  have hs := chkD_sound monthCase 10 0 372 month_table (mp * 31 + dm) (by omega) (by omega)
  simp only [monthCase] at hs
  have e1 : (mp * 31 + dm) / 31 = mp := by omega
  have e2 : (mp * 31 + dm) % 31 = dm := by omega
  rw [e1, e2] at hs
  simp only [Bool.or_eq_true, Bool.and_eq_true, decide_eq_true_eq] at hs
  rcases hs with h | ⟨⟨h1, h2⟩, h3⟩
  · omega
  · refine ⟨h1, h2, ?_⟩
    intro h365
    rcases h3 with h3 | h3
    · omega
    · exact h3

/-- Evaluating `civilFromDays` on a day expressed through era, year-of-era
and day-of-year. -/
theorem civilFromDays_eq (era : Int) (yoe mp dm : Nat)
    (h400 : yoe < 400) (hmp : mp < 12) (hdm : dm + 1 ≤ mlenM mp)
    (hleap : (153 * mp + 2) / 5 + dm = 365 → lenN yoe = 366) :
    civilFromDays (era * 146097 + ((dssN yoe + ((153 * mp + 2) / 5 + dm) : Nat) : Int) - 306) =
      (era * 400 + (yoe : Int) + (if 10 ≤ mp then 1 else 0),
       if mp < 10 then (mp : Int) + 3 else (mp : Int) - 9,
       (dm : Int) + 1) := by
  obtain ⟨f1, f2, f3⟩ := month_facts mp dm hmp hdm
  set doyN := (153 * mp + 2) / 5 + dm with hdoyN
  have hlen : doyN + 1 ≤ lenN yoe := by
    by_cases h365 : doyN = 365
    · rw [hleap h365]; omega
    · have hl : lenN yoe = 365 ∨ lenN yoe = 366 := by unfold lenN; split_ifs <;> simp
      omega
  have hyoe := yoeF_eq yoe doyN h400 hlen
  set doeN := dssN yoe + doyN with hdoeN
  have hdssB : dssN yoe ≤ 145731 := by unfold dssN; omega
  have hdoeB : doeN ≤ 146096 := by
    have hl : lenN yoe ≤ 366 := by unfold lenN; split_ifs <;> omega
    omega
  simp only [civilFromDays]
  have hz : era * 146097 + (doeN : Int) - 306 + 306 = era * 146097 + (doeN : Int) := by ring
  rw [hz]
  have hera : (era * 146097 + (doeN : Int)) / 146097 = era := by omega
  rw [hera]
  have hdoe2 : era * 146097 + (doeN : Int) - era * 146097 = (doeN : Int) := by ring
  rw [hdoe2]
  simp only [civilOfEra]
  have hyoeI : ((doeN : Int) - (doeN : Int) / 1460 + (doeN : Int) / 36524 -
      (doeN : Int) / 146096) / 365 = (yoe : Int) := by
    unfold yoeFN gN at hyoe
    omega
  rw [hyoeI]
  have hdoyI : (doeN : Int) - (365 * (yoe : Int) + (yoe : Int) / 4 - (yoe : Int) / 100) =
      (doyN : Int) := by
    unfold dssN at hdoeN
    omega
  rw [hdoyI]
  simp only [civilOfYoe]
  have hmpI : (5 * (doyN : Int) + 2) / 153 = (mp : Int) := by omega
  rw [hmpI]
  have hdI : (doyN : Int) - (153 * (mp : Int) + 2) / 5 + 1 = (dm : Int) + 1 := by omega
  rw [hdI]
  by_cases h10 : mp < 10
  · have h10' : (mp : Int) < 10 := by exact_mod_cast h10
    rw [if_pos h10', if_pos h10, if_neg (show ¬((mp : Int) + 3 ≤ 2) by omega),
      if_neg (show ¬(10 ≤ mp) by omega)]
  · have h10' : ¬((mp : Int) < 10) := by omega
    rw [if_neg h10', if_neg h10, if_pos (show (mp : Int) - 9 ≤ 2 by omega),
      if_pos (show 10 ≤ mp by omega)]

/-- The calendar round-trip: converting a valid civil date to its day
number and back recovers it. -/
theorem civil_days_roundtrip (y m d : Int) (hm1 : 1 ≤ m) (hm2 : m ≤ 12)
    (hd1 : 1 ≤ d) (hd2 : d ≤ goDaysIn m y) :
    civilFromDays (daysFromCivil y m d) = (y, m, d) := by
  by_cases hmle : m ≤ 2
  · -- January and February belong to the previous March-based year
    set y1 := y - 1 with hy1
    set era := y1 / 400 with hera
    obtain ⟨yoe, hyoeN⟩ : ∃ n : Nat, (n : Int) = y1 - era * 400 :=
      ⟨(y1 - era * 400).toNat, Int.toNat_of_nonneg (by omega)⟩
    have hyoeB : yoe < 400 := by omega
    obtain ⟨mp, hmpN⟩ : ∃ n : Nat, (n : Int) = m + 9 :=
      ⟨(m + 9).toNat, Int.toNat_of_nonneg (by omega)⟩
    obtain ⟨dm, hdmN⟩ : ∃ n : Nat, (n : Int) = d - 1 :=
      ⟨(d - 1).toNat, Int.toNat_of_nonneg (by omega)⟩
    have hmpB : mp < 12 := by omega
    have hdm : dm + 1 ≤ mlenM mp := by
      have hdi : goDaysIn m y ≤ (mlenM mp : Int) := by
        unfold goDaysIn mlenM
        split_ifs <;> omega
      omega
    have hleap : (153 * mp + 2) / 5 + dm = 365 → lenN yoe = 366 := by
      intro h365
      obtain ⟨hmp11, hdm28⟩ := (month_facts mp dm hmpB hdm).2.2 h365
      -- then m = 2 and d = 29, so the year must be leap
      have hm2' : m = 2 := by omega
      have hd29 : d = 29 := by omega
      have hlp : isLeap y = true := by
        unfold goDaysIn at hd2
        rw [if_pos hm2'] at hd2
        by_contra hno
        rw [Bool.not_eq_true] at hno
        rw [hno] at hd2
        simp at hd2
        omega
      unfold isLeap at hlp
      rw [decide_eq_true_eq] at hlp
      unfold lenN
      rw [if_pos ?side]
      case side =>
        -- y = era * 400 + yoe + 1
        omega
    have hd' : daysFromCivil y m d =
        era * 146097 + ((dssN yoe + ((153 * mp + 2) / 5 + dm) : Nat) : Int) - 306 := by
      simp only [daysFromCivil]
      rw [if_pos hmle, if_neg (by omega)]
      unfold dssN
      omega
    rw [hd', civilFromDays_eq era yoe mp dm hyoeB hmpB hdm hleap]
    simp only [Prod.mk.injEq]
    refine ⟨?_, ?_, by omega⟩
    · rw [if_pos (show 10 ≤ mp by omega)]; omega
    · rw [if_neg (show ¬(mp < 10) by omega)]; omega
  · -- March to December
    set era := y / 400 with hera
    obtain ⟨yoe, hyoeN⟩ : ∃ n : Nat, (n : Int) = y - era * 400 :=
      ⟨(y - era * 400).toNat, Int.toNat_of_nonneg (by omega)⟩
    have hyoeB : yoe < 400 := by omega
    obtain ⟨mp, hmpN⟩ : ∃ n : Nat, (n : Int) = m - 3 :=
      ⟨(m - 3).toNat, Int.toNat_of_nonneg (by omega)⟩
    obtain ⟨dm, hdmN⟩ : ∃ n : Nat, (n : Int) = d - 1 :=
      ⟨(d - 1).toNat, Int.toNat_of_nonneg (by omega)⟩
    have hmpB : mp < 12 := by omega
    have hdm : dm + 1 ≤ mlenM mp := by
      have hdi : goDaysIn m y ≤ (mlenM mp : Int) := by
        unfold goDaysIn mlenM
        split_ifs <;> omega
      omega
    have hleap : (153 * mp + 2) / 5 + dm = 365 → lenN yoe = 366 := by
      intro h365
      obtain ⟨hmp11, hdm28⟩ := (month_facts mp dm hmpB hdm).2.2 h365
      omega
    have hd' : daysFromCivil y m d =
        era * 146097 + ((dssN yoe + ((153 * mp + 2) / 5 + dm) : Nat) : Int) - 306 := by
      simp only [daysFromCivil]
      rw [if_neg hmle, if_pos (by omega)]
      unfold dssN
      omega
    rw [hd', civilFromDays_eq era yoe mp dm hyoeB hmpB hdm hleap]
    simp only [Prod.mk.injEq]
    refine ⟨?_, ?_, by omega⟩
    · rw [if_neg (show ¬(10 ≤ mp) by omega)]; omega
    · rw [if_pos (show mp < 10 by omega)]; omega

/-- For a month already in 1..12, `goDateDays` plus the day offset is the
day number of the civil date. -/
theorem goDateDays_valid (y m d : Int) (hm1 : 1 ≤ m) (hm2 : m ≤ 12) :
    goDateDays y m + (d - 1) = daysFromCivil y m d := by
  simp only [goDateDays]
  have e1 : y + (m - 1) / 12 = y := by omega
  have e2 : (m - 1) % 12 + 1 = m := by omega
  rw [e1, e2]
  simp only [daysFromCivil]
  split_ifs <;> omega

/-- The wall-clock day number of a constructed date is its day-number
argument (the zone offset cancels). -/
theorem goDate_wallDays (y m d off : Int) :
    wallDays (goDate y m d off) = goDateDays y m + (d - 1) := by
  simp only [goDate, goDateFull, wallDays, wallSecs, secondsPerDay]
  have e : (goDateDays y m + (d - 1)) * 86400 + 0 - off + off =
      (goDateDays y m + (d - 1)) * 86400 := by ring
  rw [e]
  omega

/-- The wall-clock accessors of a date constructed from a valid (y, m, d)
return exactly (y, m, d), in any zone. -/
theorem goDate_accessors (y m d off : Int) (hm1 : 1 ≤ m) (hm2 : m ≤ 12)
    (hd1 : 1 ≤ d) (hd2 : d ≤ goDaysIn m y) :
    Date.Year (goDate y m d off) = y ∧ Date.Month (goDate y m d off) = m ∧
      Date.Day (goDate y m d off) = d := by
  have h1 : wallDays (goDate y m d off) = daysFromCivil y m d := by
    rw [goDate_wallDays, goDateDays_valid y m d hm1 hm2]
  have h2 := civil_days_roundtrip y m d hm1 hm2 hd1 hd2
  unfold Date.Year Date.Month Date.Day
  rw [h1, h2]
  exact ⟨rfl, rfl, rfl⟩

/-- Comparison of two midnight constructions of the same (y, m, d) in two
zones whose offsets are non-positive (at or west of UTC): both truncate to
the same UTC day boundary, so they compare equal. -/
theorem cross_zone_compare (y m d offa offb : Int)
    (ha1 : -86400 < offa) (ha2 : offa ≤ 0) (hb1 : -86400 < offb) (hb2 : offb ≤ 0) :
    Date.Equal (goDate y m d offa) (goDate y m d offb) = true ∧
    Date.Before (goDate y m d offa) (goDate y m d offb) = false ∧
    Date.After (goDate y m d offa) (goDate y m d offb) = false := by
  simp only [Date.Equal, Date.Before, Date.After, truncate24, toUTC, goDate, goDateFull,
    secondsPerDay, decide_eq_true_eq, decide_eq_false_iff_not]
  generalize goDateDays y m + (d - 1) = D
  refine ⟨?_, ?_, ?_⟩ <;> omega

/-- C1 (counterexample): a date parsed at UTC midnight of 2023-10-01 and
the same calendar day constructed at local midnight in a fixed +05:00 zone
(offset 18000 s) do NOT compare equal: the +05:00 instant truncates to the
previous UTC day, and the UTC value even sorts strictly after it. -/
theorem C1_counterexample :
    Date.Equal (goDate 2023 10 1 0) (goDate 2023 10 1 18000) = false ∧
    Date.After (goDate 2023 10 1 0) (goDate 2023 10 1 18000) = true := by
  decide

/-- C1 (amended): Equal/Before/After compare the operands' instants rounded
down to 24h multiples since the zero time (UTC calendar days); two values
representing the same calendar day constructed at midnight in two source
zones compare equal whenever both zone offsets are non-positive (UTC
itself or any zone west of UTC); with a positive (east) offset the claim
fails, as the counterexample shows. -/
theorem C1_equal_ignores_west_zone (y m d offa offb : Int)
    (ha1 : -86400 < offa) (ha2 : offa ≤ 0) (hb1 : -86400 < offb) (hb2 : offb ≤ 0) :
    Date.Equal (goDate y m d offa) (goDate y m d offb) = true ∧
    Date.Before (goDate y m d offa) (goDate y m d offb) = false ∧
    Date.After (goDate y m d offa) (goDate y m d offb) = false :=
  cross_zone_compare y m d offa offb ha1 ha2 hb1 hb2

/-- C1 (witness): UTC-midnight 2015-10-21 equals the same day constructed
at midnight in a fixed -05:00 zone. -/
theorem C1_witness :
    Date.Equal (goDate 2015 10 21 0) (goDate 2015 10 21 (-18000)) = true ∧
    Date.Before (goDate 2015 10 21 0) (goDate 2015 10 21 (-18000)) = false ∧
    Date.After (goDate 2015 10 21 0) (goDate 2015 10 21 (-18000)) = false :=
  C1_equal_ignores_west_zone 2015 10 21 0 (-18000) (by norm_num) (by norm_num)
    (by norm_num) (by norm_num)

/-- C3: `String()` formats the year with `%d`, not zero-padded, so the zero
value renders as `1-01-01`, not `0001-01-01` (the `2006-01-02` layout named
in the method's doc comment would produce `0001-01-01`); four-digit years
render as `YYYY-MM-DD` in any construction zone. -/
theorem C3_string_rendering :
    Date.String zeroDate = "1-01-01" ∧
    Date.String (goDate 2015 10 21 0) = "2015-10-21" ∧
    Date.String (NewDate (-18000) 2015 10 21) = "2015-10-21" ∧
    Date.String (goDate 999 1 1 0) = "999-01-01" := by
  decide

/-- C8: `DaysInMonth` evaluated at the test points of the spec (first days
of months) and at end-of-month days, where `AddDate(0,1,0)` overflows into
the month after next and the function returns the length of the FOLLOWING
month: Jan 31, 2015 gives 28 (February's length, not January's 31) and
Oct 31, 2015 gives 30 (November's length); `DaysInYear` follows the
Gregorian rule. -/
theorem C8_days_in_month_and_year :
    Date.DaysInMonth (goDate 2015 1 31 0) = 28 ∧
    Date.DaysInMonth (goDate 2015 10 31 0) = 30 ∧
    Date.DaysInMonth (goDate 2015 12 1 0) = 31 ∧
    Date.DaysInMonth (goDate 2015 11 1 0) = 30 ∧
    Date.DaysInMonth (goDate 2016 2 1 0) = 29 ∧
    Date.DaysInMonth (goDate 2015 2 1 0) = 28 ∧
    Date.DaysInMonth (goDate 2015 12 10 0) = 31 ∧
    Date.DaysInYear (goDate 2020 7 1 0) = 366 ∧
    Date.DaysInYear (goDate 2021 7 1 0) = 365 ∧
    Date.DaysInYear (goDate 2000 1 1 0) = 366 ∧
    Date.DaysInYear (goDate 1900 1 1 0) = 365 := by
  decide

/-- C9: whenever `Scan` returns an error, the receiver has been overwritten
with the zero value (the fresh `NullTime`'s zero `Time` field is assigned
unconditionally), so the previously held date is lost. -/
theorem C9_scan_error_zeroes_receiver (old : Date) (v : DriverValue)
    (h : (Date.Scan old v).2 ≠ none) : (Date.Scan old v).1 = zeroDate := by
  cases v <;> simp [Date.Scan, nullTimeScan] at h ⊢

/-- C9 (witness): scanning a string into a receiver holding 2015-10-21
errors and leaves the receiver zero. -/
theorem C9_witness :
    (Date.Scan (goDate 2015 10 21 0) (.stringVal "x")).1 = zeroDate :=
  C9_scan_error_zeroes_receiver (goDate 2015 10 21 0) (.stringVal "x") (by decide)

/-- C10: `JSON.Scan` panics (instead of returning an error) on every driver
value that is not a byte slice, because of the unchecked type assertion
`value.([]byte)`. -/
theorem C10_json_scan_panics (v : DriverValue) (h : ∀ b, v ≠ .bytesVal b) :
    JSON.Scan v = .panicked := by
  cases v <;> first | rfl | exact absurd rfl (h _)

/-- C10 (witness): a nil driver value and a plain string both panic. -/
theorem C10_witness :
    JSON.Scan .null = .panicked ∧ JSON.Scan (.stringVal "x") = .panicked :=
  ⟨C10_json_scan_panics .null (fun _ h => nomatch h),
   C10_json_scan_panics (.stringVal "x") (fun _ h => nomatch h)⟩

/-- C7 (amended): `DaysBetween` is always non-negative and symmetric; and
it returns exactly the number k of whole calendar days between the two
midnight-truncated instants whenever k is at most 106751 (the whole-day
saturation bound of Go's `Duration`: ⌊(2^63-1) ns / 24h⌋); beyond that the
saturating `Sub` caps the result at 106751, as the counterexample shows. -/
theorem C7_days_between (t u : Date) :
    (0 ≤ Date.DaysBetween t u ∧ Date.DaysBetween t u = Date.DaysBetween u t) ∧
    (∀ k : Int, 0 ≤ k → k ≤ 106751 →
      ((truncate24 u).abs - (truncate24 t).abs = k * 86400 ∨
       (truncate24 t).abs - (truncate24 u).abs = k * 86400) →
      Date.DaysBetween t u = k) := by
  refine ⟨⟨?_, ?_⟩, ?_⟩
  · simp only [Date.DaysBetween, clampDur, maxDur, truncate24, secondsPerDay]
    split_ifs <;> omega
  · simp only [Date.DaysBetween, clampDur, maxDur, truncate24, secondsPerDay]
    split_ifs <;> omega
  · intro k hk1 hk2 h
    simp only [Date.DaysBetween, clampDur, maxDur, truncate24, secondsPerDay] at h ⊢
    rcases h with h | h <;> (split_ifs <;> omega)

/-- C7 (counterexample): there are 737790 whole calendar days between
0001-01-01 (the zero date) and 2021-01-01, both taken at UTC midnight, but
`DaysBetween` returns the saturated 106751 because the difference
overflows Go's `Duration`. -/
theorem C7_counterexample :
    Date.DaysBetween (goDate 1 1 1 0) (goDate 2021 1 1 0) = 106751 ∧
    (truncate24 (goDate 2021 1 1 0)).abs - (truncate24 (goDate 1 1 1 0)).abs =
      737790 * 86400 ∧
    (106751 : Int) ≠ 737790 := by
  decide

/-- C7 (witness): one year apart gives 365; adjacent days in reversed order
give 1; the same day gives 0. -/
theorem C7_witness :
    Date.DaysBetween (goDate 2021 1 1 0) (goDate 2022 1 1 0) = 365 ∧
    Date.DaysBetween (goDate 2021 10 2 0) (goDate 2021 10 1 0) = 1 ∧
    Date.DaysBetween (goDate 2021 1 1 0) (goDate 2021 1 1 0) = 0 :=
  ⟨(C7_days_between (goDate 2021 1 1 0) (goDate 2022 1 1 0)).2 365 (by norm_num)
      (by norm_num) (Or.inl (by decide)),
   (C7_days_between (goDate 2021 10 2 0) (goDate 2021 10 1 0)).2 1 (by norm_num)
      (by norm_num) (Or.inr (by decide)),
   (C7_days_between (goDate 2021 1 1 0) (goDate 2021 1 1 0)).2 0 (by norm_num)
      (by norm_num) (Or.inl (by decide))⟩

/-- C4 (amended): the four behaviors of `UnmarshalJSON`: the exact literal
`null` is a no-op; a `null` literal surrounded by whitespace is NOT a no-op
and not an error — the string decode leaves `s` empty, the raw-bytes
comparison with `null` fails, and the blank-string branch sets the zero
date; a blank JSON string sets the zero date; any input that does not
decode as a JSON string or null fails with the type error. -/
theorem C4_unmarshal_branches :
    (∀ old : Date, Date.UnmarshalJSON (.jnull false) old = .ok old) ∧
    (∀ old : Date, Date.UnmarshalJSON (.jnull true) old = .ok zeroDate) ∧
    (∀ old : Date, ∀ s, goTrimSpace s = "" →
      Date.UnmarshalJSON (.jstr s) old = .ok zeroDate) ∧
    (∀ old : Date, ∀ raw, Date.UnmarshalJSON (.jother raw) old =
      .error (.typeError raw)) := by
  refine ⟨fun old => rfl,
    fun old => by show unmarshalStringPath "" = .ok zeroDate; decide,
    ?_, fun old raw => rfl⟩
  intro old s hs
  show unmarshalStringPath s = .ok zeroDate
  unfold unmarshalStringPath
  rw [if_pos hs]
  decide

/-- C4 (counterexample): feeding the bytes of a whitespace-padded JSON
`null` (e.g. `null` followed by a newline) — which is not a JSON string —
does not produce a type error and is not a no-op either: the receiver is
overwritten with the zero date. -/
theorem C4_counterexample :
    Date.UnmarshalJSON (.jnull true) (goDate 2015 10 21 0) = .ok zeroDate ∧
    goDate 2015 10 21 0 ≠ zeroDate := by
  decide

/-- C4 (witness): a whitespace-only JSON string sets the zero date on a
receiver that held 2015-10-21; a malformed input raises the type error. -/
theorem C4_witness :
    Date.UnmarshalJSON (.jstr " ") (goDate 2015 10 21 0) = .ok zeroDate ∧
    Date.UnmarshalJSON (.jother "12") (goDate 2015 10 21 0) =
      .error (.typeError "12") :=
  ⟨C4_unmarshal_branches.2.2.1 (goDate 2015 10 21 0) " " (by decide),
   C4_unmarshal_branches.2.2.2 (goDate 2015 10 21 0) "12"⟩

/-- A member on which the predicate fails survives `dropWhile`. -/
theorem mem_dropWhile_of_not (p : Char → Bool) :
    ∀ (l : List Char) (c : Char), c ∈ l → p c = false → c ∈ l.dropWhile p := by
  intro l
  induction l with
  | nil => intro c hc _; cases hc
  | cons a l ih =>
    intro c hc hp
    rcases List.mem_cons.mp hc with rfl | hc'
    · simp [List.dropWhile_cons, hp]
    · by_cases ha : p a
      · simpa [List.dropWhile_cons, ha] using ih c hc' hp
      · simp only [List.dropWhile_cons, ha, if_false]
        exact List.mem_cons_of_mem a hc'

/-- A string containing a non-space character does not trim to empty. -/
theorem goTrimSpace_ne_empty (s : String) (c : Char) (hc : c ∈ s.data)
    (hp : goIsSpace c = false) : goTrimSpace s ≠ "" := by
  unfold goTrimSpace
  intro h
  have h2 : ((s.data.dropWhile goIsSpace).reverse.dropWhile goIsSpace).reverse = [] := by
    simpa using congrArg String.data h
  rw [List.reverse_eq_nil_iff, List.dropWhile_eq_nil_iff] at h2
  have h3 : c ∈ (s.data.dropWhile goIsSpace).reverse :=
    List.mem_reverse.mpr (mem_dropWhile_of_not goIsSpace s.data c hc hp)
  have := h2 c h3
  rw [hp] at this
  cases this

/-- A successful layout parse starts with a digit character (and in
particular the input is non-empty). -/
theorem parseLayoutDate_head {l : List Char} {r : Int × Int × Int}
    (h : parseLayoutDate l = some r) :
    ∃ c rest, l = c :: rest ∧ c.isDigit = true := by
  rcases l with _ | ⟨c0, _ | ⟨c1, _ | ⟨c2, _ | ⟨c3, _ | ⟨c4, _ | ⟨c5, _ | ⟨c6, _ |
    ⟨c7, _ | ⟨c8, _ | ⟨c9, _ | ⟨c10, l⟩⟩⟩⟩⟩⟩⟩⟩⟩⟩⟩ <;>
    try exact nomatch (show (Option.none : Option (Int × Int × Int)) = some r from h)
  simp only [parseLayoutDate] at h
  split_ifs at h with h1 h2 h3
  exact ⟨c0, _, rfl, h1.1⟩

/-- A digit character is not white space. -/
theorem digit_not_space (c : Char) (h : c.isDigit = true) : goIsSpace c = false := by
  rw [goIsSpace]
  rw [decide_eq_false_iff_not]
  intro hmem
  fin_cases hmem <;> exact absurd h (by decide)

/-- `ParseDate` on the empty string: the empty-input error. -/
theorem parseDate_empty : ParseDate "" = .error .emptyInput := rfl

/-- `ParseDate` on a non-empty blank string: success with the zero date
(the lenient blank branch of the JSON path). -/
theorem parseDate_blank (s : String) (h1 : s ≠ "") (h2 : goTrimSpace s = "") :
    ParseDate s = .ok zeroDate := by
  rw [ParseDate, if_neg h1]
  show unmarshalStringPath s = _
  simp only [unmarshalStringPath]
  rw [if_pos h2]
  decide

/-- `ParseDate` on a non-blank string that does not match the layout: the
format error. -/
theorem parseDate_format_error (s : String) (h1 : s ≠ "") (h2 : goTrimSpace s ≠ "")
    (h3 : parseLayoutDate s.data = none) : ParseDate s = .error .formatError := by
  rw [ParseDate, if_neg h1]
  show unmarshalStringPath s = _
  simp only [unmarshalStringPath]
  rw [if_neg h2, h3]

/-- `ParseDate` on a string matching the layout: success, with the date
set to midnight UTC of the parsed day. -/
theorem parseDate_ok (s : String) (y m d : Int)
    (h : parseLayoutDate s.data = some (y, m, d)) :
    ParseDate s = .ok (goDate y m d 0) := by
  obtain ⟨c, rest, hshape, hdig⟩ := parseLayoutDate_head h
  have hne : s ≠ "" := by
    intro he
    rw [he] at hshape
    exact nomatch hshape
  have htrim : goTrimSpace s ≠ "" :=
    goTrimSpace_ne_empty s c (by rw [hshape]; exact List.mem_cons_self c rest)
      (digit_not_space c hdig)
  rw [ParseDate, if_neg hne]
  show unmarshalStringPath s = _
  simp only [unmarshalStringPath]
  rw [if_neg htrim, h]

/-- `ParseDate` never returns the empty-input error on a non-empty string. -/
theorem parseDate_empty_iff (s : String) :
    ParseDate s = .error .emptyInput ↔ s = "" := by
  constructor
  · intro h
    by_contra hne
    rw [ParseDate, if_neg hne] at h
    have h' : unmarshalStringPath s = .error .emptyInput := h
    simp only [unmarshalStringPath] at h'
    rcases hm : parseLayoutDate
        ((if goTrimSpace s = "" then "0001-01-01" else s).data) with _ | yy
    · rw [hm] at h'
      exact nomatch h'
    · obtain ⟨y, m, d⟩ := yy
      rw [hm] at h'
      exact nomatch h'
  · intro h
    rw [h]
    exact parseDate_empty

/-- C5 (amended): `ParseDate` fails with the empty-input error exactly on
the empty string; a non-empty string that is all white space SUCCEEDS with
the zero date (the lenient blank branch of the shared JSON path leaks into
`ParseDate`, see the counterexample); every other non-matching string
fails with the format error; and every string matching the strict
`YYYY-MM-DD` layout parses to midnight UTC of that day. -/
theorem C5_parse_errors :
    (∀ s : String, ParseDate s = .error .emptyInput ↔ s = "") ∧
    (∀ s : String, s ≠ "" → goTrimSpace s = "" → ParseDate s = .ok zeroDate) ∧
    (∀ s : String, s ≠ "" → goTrimSpace s ≠ "" → parseLayoutDate s.data = none →
      ParseDate s = .error .formatError) ∧
    (∀ (s : String) (y m d : Int), parseLayoutDate s.data = some (y, m, d) →
      ParseDate s = .ok (goDate y m d 0)) :=
  ⟨parseDate_empty_iff, parseDate_blank, parseDate_format_error, parseDate_ok⟩

/-- C5 (counterexample): a single space is a non-empty input that does not
match the `YYYY-MM-DD` layout, yet `ParseDate` succeeds on it (returning
the zero date) instead of failing with a format error. -/
theorem C5_counterexample :
    ParseDate " " = .ok zeroDate ∧ (" " : String) ≠ "" ∧
    parseLayoutDate (" " : String).data = none := by
  decide

/-- C5 (witness): the empty string gives the empty-input error; an invalid
month and a wrong field order give the format error; a well-formed date
parses. -/
theorem C5_witness :
    ParseDate "" = .error .emptyInput ∧
    ParseDate "2023-13-01" = .error .formatError ∧
    ParseDate "01-10-2023" = .error .formatError ∧
    ParseDate "2023-10-01" = .ok (goDate 2023 10 1 0) :=
  ⟨(C5_parse_errors.1 "").mpr rfl,
   C5_parse_errors.2.2.1 "2023-13-01" (by decide) (by decide) (by decide),
   C5_parse_errors.2.2.1 "01-10-2023" (by decide) (by decide) (by decide),
   C5_parse_errors.2.2.2 "2023-10-01" 2023 10 1 (by decide)⟩

/-- C6 (amended): the zero value marshals to the literal `null`; every
non-zero value whose wall year lies in [0, 9999] marshals to the quoted
zero-padded `YYYY-MM-DD` string; outside that range the underlying
RFC 3339 serializer fails and the error is propagated (see the
counterexample); in particular `NewDate(2015,10,21)` marshals to exactly
`"2015-10-21"` in any construction zone. -/
theorem C6_marshal_json (t : Date) :
    (Date.MarshalJSON zeroDate = .ok "null") ∧
    (Date.IsZero t = true → Date.MarshalJSON t = .ok "null") ∧
    (Date.IsZero t = false → 0 ≤ Date.Year t → Date.Year t ≤ 9999 → t.off % 60 = 0 →
      Date.MarshalJSON t = .ok (String.mk ('"' :: (pad4 (Date.Year t) ++
        '-' :: (pad2 (Date.Month t) ++ '-' :: (pad2 (Date.Day t) ++ ['"'])))))) ∧
    (∀ off : Int, -86400 < off → off < 86400 → off % 60 = 0 →
      Date.MarshalJSON (NewDate off 2015 10 21) = .ok "\"2015-10-21\"") := by
  refine ⟨by decide, ?_, ?_, ?_⟩
  · intro h
    unfold Date.MarshalJSON
    rw [if_pos h]
  · intro h1 h2 h3 h4
    unfold Date.MarshalJSON
    rw [if_neg (by rw [h1]; exact Bool.false_ne_true), if_neg (by omega)]
  · intro off ho1 ho2 ho3
    obtain ⟨hy, hm, hd⟩ := goDate_accessors 2015 10 21 off (by norm_num) (by norm_num)
      (by norm_num) (by decide)
    have hD : goDateDays 2015 10 = 735871 := by decide
    have hz : Date.IsZero (NewDate off 2015 10 21) = false := by
      simp only [NewDate, goDate, goDateFull, Date.IsZero, hD, secondsPerDay,
        decide_eq_false_iff_not]
      omega
    have hoff : (NewDate off 2015 10 21).off = off := rfl
    unfold Date.MarshalJSON
    rw [if_neg (by rw [hz]; exact Bool.false_ne_true)]
    rw [show Date.Year (NewDate off 2015 10 21) = 2015 from hy,
      show Date.Month (NewDate off 2015 10 21) = 10 from hm,
      show Date.Day (NewDate off 2015 10 21) = 21 from hd, hoff]
    rw [if_neg (by omega)]
    decide

/-- C6 (counterexample): the non-zero date 10000-01-01 (constructible with
`NewDate(10000, 1, 1)`) does not marshal to a JSON string at all — the
underlying serializer rejects years above 9999 and `MarshalJSON` returns
its error. -/
theorem C6_counterexample :
    Date.MarshalJSON (goDate 10000 1 1 0) = .error .serialization ∧
    Date.IsZero (goDate 10000 1 1 0) = false := by
  decide

/-- C6 (witness): the test vector, constructed in a fixed -05:00 zone. -/
theorem C6_witness :
    Date.MarshalJSON (NewDate (-18000) 2015 10 21) = .ok "\"2015-10-21\"" :=
  (C6_marshal_json (NewDate (-18000) 2015 10 21)).2.2.2 (-18000) (by norm_num)
    (by norm_num) (by norm_num)

/-- The fuel-based digit rendering agrees with `Nat.digits`. -/
theorem natCharsAux_digits : ∀ (fuel n : Nat), n ≤ fuel →
    natCharsAux fuel n = ((Nat.digits 10 n).map digitChar).reverse := by
  intro fuel
  induction fuel with
  | zero =>
    intro n h
    have hn : n = 0 := by omega
    subst hn
    simp [natCharsAux]
  | succ f ih =>
    intro n h
    rw [natCharsAux]
    by_cases hn : n = 0
    · subst hn; simp
    · rw [if_neg hn, ih (n / 10) (by omega),
        Nat.digits_def' (by norm_num : (1:Nat) < 10) (Nat.pos_of_ne_zero hn)]
      simp

/-- Digit characters are digits and decode to their value. -/
theorem digit_facts (k : Nat) (hk : k < 10) :
    (digitChar k).isDigit = true ∧ charVal (digitChar k) = k := by
  interval_cases k <;> exact ⟨by decide, by decide⟩

/-- Decimal rendering of a one-digit number. -/
theorem natChars1 (n : Nat) (hl : 1 ≤ n) (hu : n ≤ 9) : natChars n = [digitChar n] := by
  unfold natChars
  rw [if_neg (by omega), natCharsAux_digits n n le_rfl,
    Nat.digits_def' (by norm_num : (1:Nat) < 10) (by omega : 0 < n)]
  have h0 : n / 10 = 0 := by omega
  have h1 : n % 10 = n := by omega
  rw [h0, h1, Nat.digits_zero]
  simp

/-- Decimal rendering of a two-digit number. -/
theorem natChars2 (n : Nat) (hl : 10 ≤ n) (hu : n ≤ 99) :
    natChars n = [digitChar (n / 10), digitChar (n % 10)] := by
  unfold natChars
  rw [if_neg (by omega), natCharsAux_digits n n le_rfl,
    Nat.digits_def' (by norm_num : (1:Nat) < 10) (by omega : 0 < n),
    Nat.digits_def' (by norm_num : (1:Nat) < 10) (by omega : 0 < n / 10)]
  have h0 : n / 10 / 10 = 0 := by omega
  have h1 : n / 10 % 10 = n / 10 := by omega
  rw [h0, h1, Nat.digits_zero]
  simp

/-- Decimal rendering of a four-digit number. -/
theorem natChars4 (n : Nat) (h1 : 1000 ≤ n) (h2 : n ≤ 9999) :
    natChars n = [digitChar (n / 1000), digitChar (n / 100 % 10),
      digitChar (n / 10 % 10), digitChar (n % 10)] := by
  unfold natChars
  rw [if_neg (by omega), natCharsAux_digits n n le_rfl,
    Nat.digits_def' (by norm_num : (1:Nat) < 10) (by omega : 0 < n),
    Nat.digits_def' (by norm_num : (1:Nat) < 10) (by omega : 0 < n / 10),
    Nat.digits_def' (by norm_num : (1:Nat) < 10) (by omega : 0 < n / 10 / 10),
    Nat.digits_def' (by norm_num : (1:Nat) < 10) (by omega : 0 < n / 10 / 10 / 10)]
  have h0 : n / 10 / 10 / 10 / 10 = 0 := by omega
  have e1 : n / 10 / 10 / 10 % 10 = n / 1000 := by omega
  have e2 : n / 10 / 10 % 10 = n / 100 % 10 := by omega
  rw [h0, e1, e2, Nat.digits_zero]
  simp

/-- `%02d` of a one-digit positive number. -/
theorem pad2_small (n : Int) (hl : 1 ≤ n) (hu : n ≤ 9) :
    pad2 n = ['0', digitChar n.toNat] := by
  simp only [pad2, intChars]
  rw [if_neg (by omega : ¬ n < 0), natChars1 n.toNat (by omega) (by omega)]
  rfl

/-- `%02d` of a two-digit number. -/
theorem pad2_two (n : Int) (hl : 10 ≤ n) (hu : n ≤ 99) :
    pad2 n = [digitChar (n.toNat / 10), digitChar (n.toNat % 10)] := by
  simp only [pad2, intChars]
  rw [if_neg (by omega : ¬ n < 0), natChars2 n.toNat (by omega) (by omega)]
  rfl

/-- `%02d` of a number in 1..99 yields two digit characters decoding to it. -/
theorem pad2_digits (n : Int) (h1 : 1 ≤ n) (h2 : n ≤ 99) :
    ∃ p q, pad2 n = [p, q] ∧ p.isDigit = true ∧ q.isDigit = true ∧
      ((charVal p * 10 + charVal q : Nat) : Int) = n := by
  by_cases h : n < 10
  · refine ⟨'0', digitChar n.toNat, pad2_small n h1 (by omega), by decide,
      (digit_facts n.toNat (by omega)).1, ?_⟩
    rw [show charVal '0' = 0 from by decide, (digit_facts n.toNat (by omega)).2]
    omega
  · refine ⟨digitChar (n.toNat / 10), digitChar (n.toNat % 10),
      pad2_two n (by omega) h2, (digit_facts _ (by omega)).1,
      (digit_facts _ (by omega)).1, ?_⟩
    rw [(digit_facts (n.toNat / 10) (by omega)).2, (digit_facts (n.toNat % 10) (by omega)).2]
    omega

/-- `%d` of a four-digit year yields four digit characters decoding to it. -/
theorem intChars_digits4 (n : Int) (h1 : 1000 ≤ n) (h2 : n ≤ 9999) :
    ∃ a b c e, intChars n = [a, b, c, e] ∧ a.isDigit = true ∧ b.isDigit = true ∧
      c.isDigit = true ∧ e.isDigit = true ∧
      ((charVal a * 1000 + charVal b * 100 + charVal c * 10 + charVal e : Nat) : Int) = n := by
  refine ⟨digitChar (n.toNat / 1000), digitChar (n.toNat / 100 % 10),
    digitChar (n.toNat / 10 % 10), digitChar (n.toNat % 10), ?_,
    (digit_facts _ (by omega)).1, (digit_facts _ (by omega)).1,
    (digit_facts _ (by omega)).1, (digit_facts _ (by omega)).1, ?_⟩
  · unfold intChars
    rw [if_neg (by omega), natChars4 n.toNat (by omega) (by omega)]
  · rw [(digit_facts (n.toNat / 1000) (by omega)).2,
      (digit_facts (n.toNat / 100 % 10) (by omega)).2,
      (digit_facts (n.toNat / 10 % 10) (by omega)).2,
      (digit_facts (n.toNat % 10) (by omega)).2]
    omega

/-- Building a successful layout parse from its pieces. -/
theorem parseLayoutDate_build (y3 y2 y1 y0 m1 m0 d1 d0 : Char) (y m d : Int)
    (hy3 : y3.isDigit = true) (hy2 : y2.isDigit = true) (hy1 : y1.isDigit = true)
    (hy0 : y0.isDigit = true) (hm1 : m1.isDigit = true) (hm0 : m0.isDigit = true)
    (hd1 : d1.isDigit = true) (hd0 : d0.isDigit = true)
    (hyv : ((charVal y3 * 1000 + charVal y2 * 100 + charVal y1 * 10 + charVal y0 : Nat) : Int) = y)
    (hmv : ((charVal m1 * 10 + charVal m0 : Nat) : Int) = m)
    (hdv : ((charVal d1 * 10 + charVal d0 : Nat) : Int) = d)
    (hmr : 1 ≤ m ∧ m ≤ 12) (hdr : 1 ≤ d ∧ d ≤ goDaysIn m y) :
    parseLayoutDate [y3, y2, y1, y0, '-', m1, m0, '-', d1, d0] = some (y, m, d) := by
  simp only [parseLayoutDate]
  rw [if_pos ⟨hy3, hy2, hy1, hy0, trivial, hm1, hm0, trivial, hd1, hd0⟩]
  rw [hyv, hmv, hdv]
  rw [if_pos hmr, if_pos hdr]

/-- C2 (amended): for every valid (y, m, d) with a FOUR-digit year
(1000..9999 — smaller years render without zero padding and fail to parse,
see the counterexample) and a construction zone at or west of UTC (with a
positive east offset even the `Equal` comparison fails, as in C1),
formatting `NewDate(y,m,d)` with `String()` and parsing it back with
`ParseDate` succeeds and yields a date `Equal` to the original. -/
theorem C2_roundtrip (y m d off : Int)
    (hy1 : 1000 ≤ y) (hy2 : y ≤ 9999) (hm1 : 1 ≤ m) (hm2 : m ≤ 12)
    (hd1 : 1 ≤ d) (hd2 : d ≤ goDaysIn m y) (ho1 : -86400 < off) (ho2 : off ≤ 0) :
    ParseDate (Date.String (NewDate off y m d)) = .ok (goDate y m d 0) ∧
    Date.Equal (goDate y m d 0) (NewDate off y m d) = true := by
  constructor
  · obtain ⟨hy, hm, hd⟩ := goDate_accessors y m d off hm1 hm2 hd1 hd2
    obtain ⟨a, b, c, e, hyc, ha, hb, hc, he, hyval⟩ := intChars_digits4 y hy1 hy2
    have hdub : goDaysIn m y ≤ 31 := by
      unfold goDaysIn
      split_ifs <;> omega
    obtain ⟨p, q, hmc, hp, hq, hmval⟩ := pad2_digits m hm1 (by omega)
    obtain ⟨r, s, hdc, hr, hs, hdval⟩ := pad2_digits d hd1 (by omega)
    have hdata : (Date.String (NewDate off y m d)).data =
        [a, b, c, e, '-', p, q, '-', r, s] := by
      show (Date.String (goDate y m d off)).data = _
      unfold Date.String
      rw [hy, hm, hd, hyc, hmc, hdc]
      rfl
    refine parseDate_ok _ y m d ?_
    rw [hdata]
    exact parseLayoutDate_build a b c e p q r s y m d ha hb hc he hp hq hr hs
      hyval hmval hdval ⟨hm1, hm2⟩ ⟨hd1, hd2⟩
  · exact (cross_zone_compare y m d 0 off (by norm_num) le_rfl ho1 ho2).1

/-- C2 (counterexample): for the valid date (999, 1, 1) the round trip
fails: `String()` renders the three-digit year without padding, and
`ParseDate` rejects `999-01-01` with the format error. -/
theorem C2_counterexample :
    Date.String (NewDate 0 999 1 1) = "999-01-01" ∧
    ParseDate (Date.String (NewDate 0 999 1 1)) = .error .formatError := by
  decide

/-- C2 (witness): 2015-10-21 in a fixed -05:00 local zone round-trips. -/
theorem C2_witness :
    ParseDate (Date.String (NewDate (-18000) 2015 10 21)) = .ok (goDate 2015 10 21 0) ∧
    Date.Equal (goDate 2015 10 21 0) (NewDate (-18000) 2015 10 21) = true :=
  C2_roundtrip 2015 10 21 (-18000) (by norm_num) (by norm_num) (by norm_num)
    (by norm_num) (by norm_num) (by decide) (by norm_num) (by norm_num)
